import Mathlib

/-!
Verification of the network-ids packet→flow→detection pipeline.

The Lean definitions below are a shallow embedding of the Rust sources in
crates/network-ids-core/src: types.rs, detection.rs, ml.rs, features.rs,
capture.rs and lib.rs.  IP addresses are modelled by their rendered string,
machine integers by Nat / Int (the quantities involved stay far below the
word size), f32 arithmetic by exact rationals, and wall-clock / monotonic
instants by integer milliseconds passed in explicitly.  Functions of the
environment that cannot be embedded (the randomly initialised candle
network behind MLEngine.predict, the f32 sqrt and log2 primitives) are
taken as parameters; no theorem below depends on their values.
-/

/-- Protocol from types.rs. -/
inductive Protocol where
  | TCP
  | UDP
  | ICMP
  | Other (n : Nat)
deriving DecidableEq, Repr

/-- Severity from types.rs, ordered Low < Medium < High < Critical. -/
inductive Severity where
  | Low
  | Medium
  | High
  | Critical
deriving DecidableEq, Repr

/-- ThreatType from types.rs. -/
inductive ThreatType where
  | PortScan
  | DDoS
  | Anomalous
  | Suspicious
  | MalformedPacket
  | UnusualTraffic
  | PotentialIntrusion
deriving DecidableEq, Repr

/-- ParsedPacket from types.rs; src_ip / dst_ip keep their rendered form. -/
structure ParsedPacket where
  src_ip : String
  dst_ip : String
  src_port : Option Nat
  dst_port : Option Nat
  protocol : Protocol
  size : Nat
  flags : List String
deriving DecidableEq, Repr

/-- PacketData from types.rs; the Uuid is modelled by a Nat tag and the
chrono timestamp by integer milliseconds.  raw_data is omitted: nothing in
the embedded code reads it back. -/
structure PacketData where
  id : Nat
  timestamp : Int
  parsed : ParsedPacket
deriving DecidableEq, Repr

/-- ThreatAlert from types.rs, keeping the fields the detectors compute
from their inputs.  The fresh Uuid, the wall-clock timestamp and the
free-text description / explanation are environment effects and are not
modelled. -/
structure ThreatAlert where
  severity : Severity
  threat_type : ThreatType
  confidence : ℚ
  anomaly_score : ℚ
  source_ip : String
  target_ip : Option String
  affected_ports : List Nat
  raw_packets : List Nat
deriving DecidableEq, Repr

/-! ### Association lists

Rust HashMap / DashMap values are modelled by association lists in
insertion order.  `bumpAssoc upd k v` is `*map.entry(k).or_insert(d) = upd old v`
and `lookupAssoc d` is `map.get(k).unwrap_or(d)`. -/

/-- Combine a new value into the entry of `k`, inserting `(k, v)` when
absent (HashMap entry().or_insert pattern). -/
def bumpAssoc {κ β : Type} [DecidableEq κ] (upd : β → β → β) (k : κ) (v : β) :
    List (κ × β) → List (κ × β)
  | [] => [(k, v)]
  | (s, b) :: rest =>
      if s = k then (s, upd b v) :: rest else (s, b) :: bumpAssoc upd k v rest

/-- Lookup with default. -/
def lookupAssoc {κ β : Type} [DecidableEq κ] (d : β) : List (κ × β) → κ → β
  | [], _ => d
  | (s, b) :: rest, k => if s = k then b else lookupAssoc d rest k

/-- Optional lookup (HashMap get / DashMap get). -/
def lookupOpt {κ β : Type} [DecidableEq κ] : List (κ × β) → κ → Option β
  | [], _ => none
  | (s, b) :: rest, k => if s = k then some b else lookupOpt rest k

/-- Apply `f` to the entry of `k` (DashMap entry().and_modify pattern). -/
def updateEntry {κ β : Type} [DecidableEq κ] (f : β → β) (k : κ) :
    List (κ × β) → List (κ × β)
  | [] => []
  | (s, b) :: rest =>
      if s = k then (s, f b) :: rest else (s, b) :: updateEntry f k rest

theorem lookupAssoc_bumpAssoc {κ β : Type} [DecidableEq κ]
    (upd : β → β → β) (d : β) (hid : ∀ v, upd d v = v)
    (k : κ) (v : β) (l : List (κ × β)) (x : κ) :
    lookupAssoc d (bumpAssoc upd k v l) x =
      if x = k then upd (lookupAssoc d l x) v else lookupAssoc d l x := by
  induction l with
  | nil =>
      by_cases h : x = k
      · subst h
        simp [bumpAssoc, lookupAssoc, hid]
      · have h' : ¬ k = x := fun hh => h hh.symm
        simp [bumpAssoc, lookupAssoc, h, h']
  | cons hd tl ih =>
      obtain ⟨s, b⟩ := hd
      by_cases hsk : s = k
      · subst hsk
        by_cases hsx : s = x
        · subst hsx
          simp [bumpAssoc, lookupAssoc]
        · have hxs : ¬ x = s := fun hh => hsx hh.symm
          simp [bumpAssoc, lookupAssoc, hsx, hxs]
      · by_cases hsx : s = x
        · subst hsx
          have hxk : ¬ s = k := hsk
          simp [bumpAssoc, lookupAssoc, hsk, hxk]
        · simp [bumpAssoc, lookupAssoc, hsk, hsx, ih]

theorem mem_keys_bumpAssoc {κ β : Type} [DecidableEq κ]
    (upd : β → β → β) (k : κ) (v : β) (l : List (κ × β)) (x : κ) :
    x ∈ (bumpAssoc upd k v l).map Prod.fst ↔ x ∈ l.map Prod.fst ∨ x = k := by
  induction l with
  | nil => simp [bumpAssoc]
  | cons hd tl ih =>
      obtain ⟨s, b⟩ := hd
      by_cases hs : s = k
      · subst hs
        simp [bumpAssoc]
        tauto
      · simp [bumpAssoc, hs, ih]
        tauto

theorem nodup_keys_bumpAssoc {κ β : Type} [DecidableEq κ]
    (upd : β → β → β) (k : κ) (v : β) (l : List (κ × β))
    (h : (l.map Prod.fst).Nodup) :
    ((bumpAssoc upd k v l).map Prod.fst).Nodup := by
  induction l with
  | nil => simp [bumpAssoc]
  | cons hd tl ih =>
      obtain ⟨s, b⟩ := hd
      simp only [List.map_cons, List.nodup_cons] at h
      by_cases hs : s = k
      · subst hs
        simpa [bumpAssoc, List.nodup_cons] using h
      · simp only [bumpAssoc, hs, if_false, List.map_cons, List.nodup_cons]
        refine ⟨?_, ih h.2⟩
        rw [mem_keys_bumpAssoc]
        rintro (hmem | rfl)
        · exact h.1 hmem
        · exact hs rfl

theorem lookupAssoc_eq_of_mem {κ β : Type} [DecidableEq κ]
    (d : β) (l : List (κ × β)) (k : κ) (b : β)
    (hnd : (l.map Prod.fst).Nodup) (hmem : (k, b) ∈ l) :
    lookupAssoc d l k = b := by
  induction l with
  | nil => simp at hmem
  | cons hd tl ih =>
      obtain ⟨s, c⟩ := hd
      simp only [List.map_cons, List.nodup_cons] at hnd
      rcases List.mem_cons.mp hmem with h | h
      · rw [Prod.mk.injEq] at h
        obtain ⟨rfl, rfl⟩ := h
        simp [lookupAssoc]
      · have hk : s ≠ k := by
          rintro rfl
          exact hnd.1 (List.mem_map.mpr ⟨(s, b), h, rfl⟩)
        simp [lookupAssoc, hk, ih hnd.2 h]

theorem mem_of_lookupAssoc_ne {κ β : Type} [DecidableEq κ]
    (d : β) (l : List (κ × β)) (k : κ) (h : lookupAssoc d l k ≠ d) :
    (k, lookupAssoc d l k) ∈ l := by
  induction l with
  | nil => simp [lookupAssoc] at h
  | cons hd tl ih =>
      obtain ⟨s, b⟩ := hd
      by_cases hs : s = k
      · subst hs
        simp [lookupAssoc]
      · simp only [lookupAssoc, hs, if_false] at h ⊢
        exact List.mem_cons_of_mem _ (ih h)

/-! ### NetworkFlow (detection.rs) -/

/-- The flow-key string from detection.rs,
`format!("{}:{:?}-{}:{:?}-{}", src_ip, src_port, dst_ip, dst_port, protocol)`. -/
def reprPort : Option Nat → String
  | some p => "Some(" ++ toString p ++ ")"
  | none => "None"

/-- Display rendering of Protocol from types.rs. -/
def protoDisplay : Protocol → String
  | .TCP => "TCP"
  | .UDP => "UDP"
  | .ICMP => "ICMP"
  | .Other n => "Protocol(" ++ toString n ++ ")"

/-- Flow key of a parsed packet. -/
def mkFlowId (p : ParsedPacket) : String :=
  p.src_ip ++ ":" ++ reprPort p.src_port ++ "-" ++
    p.dst_ip ++ ":" ++ reprPort p.dst_port ++ "-" ++ protoDisplay p.protocol

/-- NetworkFlow from detection.rs.  The two Instant fields are integer
milliseconds supplied by the caller. -/
structure NetworkFlow where
  flow_id : String
  src_ip : String
  dst_ip : String
  src_port : Option Nat
  dst_port : Option Nat
  protocol : Protocol
  packets : List PacketData
  start_time : Int
  last_seen : Int
  byte_count : Nat
  flags_seen : List String
deriving DecidableEq, Repr

/-- NetworkFlow::new. -/
def NetworkFlow.new (now : Int) (packet : PacketData) : NetworkFlow where
  flow_id := mkFlowId packet.parsed
  src_ip := packet.parsed.src_ip
  dst_ip := packet.parsed.dst_ip
  src_port := packet.parsed.src_port
  dst_port := packet.parsed.dst_port
  protocol := packet.parsed.protocol
  packets := [packet]
  start_time := now
  last_seen := now
  byte_count := packet.parsed.size
  flags_seen := packet.parsed.flags

/-- NetworkFlow::add_packet: append the packet, refresh last_seen, add the
size, and merge each flag not already present (sequentially, as the Rust
loop does). -/
def NetworkFlow.add_packet (flow : NetworkFlow) (now : Int) (packet : PacketData) :
    NetworkFlow :=
  { flow with
    packets := flow.packets ++ [packet]
    last_seen := now
    byte_count := flow.byte_count + packet.parsed.size
    flags_seen :=
      packet.parsed.flags.foldl
        (fun acc fl => if acc.contains fl then acc else acc ++ [fl])
        flow.flags_seen }

/-- A flow built as the detection engine does: NetworkFlow::new on the
first packet, then add_packet for each later packet (paired with its
arrival instant). -/
def buildFlow (now0 : Int) (p : PacketData) (adds : List (Int × PacketData)) :
    NetworkFlow :=
  adds.foldl (fun fl tq => fl.add_packet tq.1 tq.2) (NetworkFlow.new now0 p)

/-! ### Rule detector: suspicious flags (detection.rs) -/

namespace ThreatPatterns

/-- ThreatPatterns::detect_suspicious_flags.  Note that both disjuncts read
the deduplicated `flags_seen` union, including the SYN count. -/
def detect_suspicious_flags (flow : NetworkFlow) : Option ThreatAlert :=
  if (flow.flags_seen.contains "SYN" ∧ flow.flags_seen.contains "FIN") ∨
      10 < (flow.flags_seen.filter (fun fl => fl = "SYN")).length then
    some
      { severity := .Medium
        threat_type := .Suspicious
        confidence := 3/5
        anomaly_score := 3/5
        source_ip := flow.src_ip
        target_ip := some flow.dst_ip
        affected_ports := flow.dst_port.toList
        raw_packets := flow.packets.map (·.id) }
  else
    none

end ThreatPatterns

/-- A TCP packet carrying only the SYN flag, as emitted by the parser for a
bare SYN segment. -/
def synOnlyPacket (i : Nat) : PacketData :=
  ⟨i, 0, ⟨"1.1.1.1", "2.2.2.2", some 1000, some 80, .TCP, 60, ["SYN"]⟩⟩

/-- A flow holding eleven SYN-bearing packets and nothing else. -/
def elevenSynFlow : NetworkFlow :=
  buildFlow 0 (synOnlyPacket 0) ((List.range 10).map fun i => (0, synOnlyPacket (i + 1)))

/-- C2, counterexample: a flow whose packet list contains eleven SYN-bearing
packets (more than 10) and no FIN raises no alert, because the code counts
SYN occurrences in the deduplicated flags_seen union rather than in the
packet list. -/
theorem eleven_syn_packets_no_alert :
    10 < (elevenSynFlow.packets.filter
        (fun p => p.parsed.flags.contains "SYN")).length ∧
      elevenSynFlow.flags_seen.contains "FIN" = false ∧
      ThreatPatterns.detect_suspicious_flags elevenSynFlow = none := by
  decide

/-- C2 (amended): detect_suspicious_flags returns an alert iff the flow
flag set contains both SYN and FIN, or contains more than 10 entries equal
to SYN; any returned alert is a Medium-severity Suspicious alert with
confidence 0.6. -/
theorem detect_suspicious_flags_spec (flow : NetworkFlow) :
    ((ThreatPatterns.detect_suspicious_flags flow).isSome ↔
      ((flow.flags_seen.contains "SYN" ∧ flow.flags_seen.contains "FIN") ∨
        10 < (flow.flags_seen.filter (fun fl => fl = "SYN")).length)) ∧
    (∀ a, ThreatPatterns.detect_suspicious_flags flow = some a →
      a.severity = .Medium ∧ a.threat_type = .Suspicious ∧ a.confidence = 3/5) := by
  constructor
  · unfold ThreatPatterns.detect_suspicious_flags
    split <;> simp_all
  · intro a ha
    unfold ThreatPatterns.detect_suspicious_flags at ha
    split at ha
    · cases ha
      exact ⟨rfl, rfl, rfl⟩
    · cases ha

/-- A flow seen with both SYN and FIN. -/
def synFinFlow : NetworkFlow :=
  NetworkFlow.new 0 ⟨0, 0, ⟨"198.51.100.1", "10.0.0.2", some 44444, some 80, .TCP, 64,
    ["SYN", "FIN"]⟩⟩

/-- Witness for detect_suspicious_flags_spec at a concrete SYN+FIN flow. -/
theorem detect_suspicious_flags_spec_witness :
    (ThreatPatterns.detect_suspicious_flags synFinFlow).isSome ∧
      ∀ a, ThreatPatterns.detect_suspicious_flags synFinFlow = some a →
        a.severity = .Medium := by
  refine ⟨(detect_suspicious_flags_spec synFinFlow).1.mpr (Or.inl (by decide)), ?_⟩
  intro a ha
  exact ((detect_suspicious_flags_spec synFinFlow).2 a ha).1

/-! ### Byte accounting (C8) -/

theorem add_packet_byte_count (fl : NetworkFlow) (now : Int) (q : PacketData)
    (h : fl.byte_count = (fl.packets.map (fun p => p.parsed.size)).sum) :
    (fl.add_packet now q).byte_count =
      ((fl.add_packet now q).packets.map (fun p => p.parsed.size)).sum := by
  simp [NetworkFlow.add_packet, h]

/-- C8: for every flow built from a first packet and any sequence of later
packets, byte_count equals the sum of the sizes of the packets in the
packet list. -/
theorem flow_byte_count_invariant (now0 : Int) (p : PacketData)
    (adds : List (Int × PacketData)) :
    (buildFlow now0 p adds).byte_count =
      ((buildFlow now0 p adds).packets.map (fun q => q.parsed.size)).sum := by
  suffices h : ∀ (l : List (Int × PacketData)) (fl : NetworkFlow),
      fl.byte_count = (fl.packets.map (fun q => q.parsed.size)).sum →
      (l.foldl (fun fl tq => fl.add_packet tq.1 tq.2) fl).byte_count =
        ((l.foldl (fun fl tq => fl.add_packet tq.1 tq.2) fl).packets.map
          (fun q => q.parsed.size)).sum by
    exact h adds (NetworkFlow.new now0 p) (by simp [NetworkFlow.new])
  intro l
  induction l with
  | nil => intro fl h; simpa using h
  | cons hd tl ih =>
      intro fl h
      exact ih _ (add_packet_byte_count fl hd.1 hd.2 h)

/-! ### Rule detector: port scan (detection.rs) -/

namespace ThreatPatterns

/-- The grouping step of detect_port_scan: flows with a destination port
push that port onto their source-IP entry. -/
def portScanStep (acc : List (String × List Nat)) (f : NetworkFlow) :
    List (String × List Nat) :=
  match f.dst_port with
  | some p => bumpAssoc (· ++ ·) f.src_ip [p] acc
  | none => acc

/-- `ip_port_map` of detect_port_scan. -/
def groupPorts (flows : List NetworkFlow) : List (String × List Nat) :=
  flows.foldl portScanStep []

/-- The destination ports contributed by `src` over a flow list, in flow
order (ports of flows whose dst_port is None do not contribute). -/
def portsOf (flows : List NetworkFlow) (src : String) : List Nat :=
  flows.filterMap fun f => if f.src_ip = src then f.dst_port else none

/-- The PortScan alert detect_port_scan builds for a qualifying source. -/
def mkPortScanAlert (flows : List NetworkFlow) (src : String) (ports : List Nat) :
    ThreatAlert :=
  let n := ports.dedup.length
  { severity := if n > 20 then .High else if n > 10 then .Medium else .Low
    threat_type := .PortScan
    confidence := min ((n : ℚ) / 100) 1
    anomaly_score := min ((n : ℚ) / 100) 1
    source_ip := src
    target_ip := flows.head?.map (·.dst_ip)
    affected_ports := ports
    raw_packets :=
      (flows.filter (fun f => f.src_ip = src)).flatMap fun f => f.packets.map (·.id) }

/-- The scan over the grouped map: return on the first source with at
least 5 distinct ports. -/
def scanPortEntries (flows : List NetworkFlow) :
    List (String × List Nat) → Option ThreatAlert
  | [] => none
  | (src, ports) :: rest =>
      if 5 ≤ ports.dedup.length then some (mkPortScanAlert flows src ports)
      else scanPortEntries flows rest

/-- ThreatPatterns::detect_port_scan. -/
def detect_port_scan (flows : List NetworkFlow) : Option ThreatAlert :=
  scanPortEntries flows (groupPorts flows)

end ThreatPatterns

theorem lookupAssoc_groupPorts_aux (flows : List NetworkFlow)
    (acc : List (String × List Nat)) (x : String) :
    lookupAssoc [] (flows.foldl ThreatPatterns.portScanStep acc) x =
      lookupAssoc [] acc x ++ ThreatPatterns.portsOf flows x := by
  induction flows generalizing acc with
  | nil => simp [ThreatPatterns.portsOf]
  | cons f rest ih =>
      rw [List.foldl_cons, ih]
      unfold ThreatPatterns.portScanStep
      cases hport : f.dst_port with
      | none =>
          by_cases hsrc : f.src_ip = x <;>
            simp [ThreatPatterns.portsOf, hsrc, hport]
      | some p =>
          rw [lookupAssoc_bumpAssoc (· ++ ·) [] (fun v => rfl)]
          by_cases hsrc : x = f.src_ip
          · subst hsrc
            simp [ThreatPatterns.portsOf, hport]
          · have : ¬ f.src_ip = x := fun hh => hsrc hh.symm
            simp [ThreatPatterns.portsOf, hsrc, this, hport]

theorem lookupAssoc_groupPorts (flows : List NetworkFlow) (x : String) :
    lookupAssoc [] (ThreatPatterns.groupPorts flows) x =
      ThreatPatterns.portsOf flows x := by
  simpa [ThreatPatterns.groupPorts] using
    lookupAssoc_groupPorts_aux flows [] x

theorem nodup_keys_groupPorts (flows : List NetworkFlow) :
    ((ThreatPatterns.groupPorts flows).map Prod.fst).Nodup := by
  suffices h : ∀ (l : List NetworkFlow) (acc : List (String × List Nat)),
      (acc.map Prod.fst).Nodup →
      ((l.foldl ThreatPatterns.portScanStep acc).map Prod.fst).Nodup by
    exact h flows [] (by simp)
  intro l
  induction l with
  | nil => intro acc h; simpa using h
  | cons f rest ih =>
      intro acc h
      rw [List.foldl_cons]
      refine ih _ ?_
      unfold ThreatPatterns.portScanStep
      cases f.dst_port with
      | none => exact h
      | some p => exact nodup_keys_bumpAssoc _ _ _ _ h

theorem scanPortEntries_isSome (flows : List NetworkFlow)
    (l : List (String × List Nat)) :
    (ThreatPatterns.scanPortEntries flows l).isSome ↔
      ∃ e ∈ l, 5 ≤ e.2.dedup.length := by
  induction l with
  | nil => simp [ThreatPatterns.scanPortEntries]
  | cons hd tl ih =>
      obtain ⟨src, ports⟩ := hd
      by_cases h : 5 ≤ ports.dedup.length
      · simp [ThreatPatterns.scanPortEntries, h]
      · simp [ThreatPatterns.scanPortEntries, h, ih]

theorem scanPortEntries_eq_some (flows : List NetworkFlow)
    (l : List (String × List Nat)) (a : ThreatAlert)
    (h : ThreatPatterns.scanPortEntries flows l = some a) :
    ∃ e ∈ l, 5 ≤ e.2.dedup.length ∧
      a = ThreatPatterns.mkPortScanAlert flows e.1 e.2 := by
  induction l with
  | nil => simp [ThreatPatterns.scanPortEntries] at h
  | cons hd tl ih =>
      obtain ⟨src, ports⟩ := hd
      by_cases hc : 5 ≤ ports.dedup.length
      · rw [ThreatPatterns.scanPortEntries, if_pos hc] at h
        cases h
        exact ⟨(src, ports), List.mem_cons_self .., hc, rfl⟩
      · rw [ThreatPatterns.scanPortEntries, if_neg hc] at h
        obtain ⟨e, hmem, hlen, ha⟩ := ih h
        exact ⟨e, List.mem_cons_of_mem _ hmem, hlen, ha⟩

/-- C5: detect_port_scan fires iff some source IP reaches 5 distinct
destination ports over the given flows, and any returned alert is a
PortScan alert whose severity follows the >20 / >10 ladder and whose
confidence is min(unique_ports / 100, 1), computed from the distinct-port
count of the alerted source. -/
theorem detect_port_scan_spec (flows : List NetworkFlow) :
    ((ThreatPatterns.detect_port_scan flows).isSome ↔
      ∃ src, 5 ≤ (ThreatPatterns.portsOf flows src).dedup.length) ∧
    (∀ a, ThreatPatterns.detect_port_scan flows = some a →
      5 ≤ (ThreatPatterns.portsOf flows a.source_ip).dedup.length ∧
      a.threat_type = .PortScan ∧
      a.severity =
        (if 20 < (ThreatPatterns.portsOf flows a.source_ip).dedup.length then .High
          else if 10 < (ThreatPatterns.portsOf flows a.source_ip).dedup.length then .Medium
          else .Low) ∧
      a.confidence =
        min (((ThreatPatterns.portsOf flows a.source_ip).dedup.length : ℚ) / 100) 1) := by
  constructor
  · rw [ThreatPatterns.detect_port_scan, scanPortEntries_isSome]
    constructor
    · rintro ⟨⟨src, ports⟩, hmem, hlen⟩
      have hports : ports = ThreatPatterns.portsOf flows src := by
        rw [← lookupAssoc_groupPorts flows src]
        exact (lookupAssoc_eq_of_mem [] _ src ports (nodup_keys_groupPorts flows) hmem).symm
      exact ⟨src, hports ▸ hlen⟩
    · rintro ⟨src, hlen⟩
      have hne : ThreatPatterns.portsOf flows src ≠ [] := by
        intro hnil
        rw [hnil] at hlen
        simp at hlen
      have hlook : lookupAssoc [] (ThreatPatterns.groupPorts flows) src ≠ [] := by
        rw [lookupAssoc_groupPorts]; exact hne
      have hmem := mem_of_lookupAssoc_ne [] _ src hlook
      rw [lookupAssoc_groupPorts] at hmem
      exact ⟨(src, ThreatPatterns.portsOf flows src), hmem, hlen⟩
  · intro a ha
    obtain ⟨⟨src, ports⟩, hmem, hlen, rfl⟩ :=
      scanPortEntries_eq_some flows _ a ha
    have hports : ports = ThreatPatterns.portsOf flows src := by
      rw [← lookupAssoc_groupPorts flows src]
      exact (lookupAssoc_eq_of_mem [] _ src ports (nodup_keys_groupPorts flows) hmem).symm
    subst hports
    refine ⟨hlen, rfl, ?_, rfl⟩
    simp [ThreatPatterns.mkPortScanAlert]

/-- Five single-packet-free flows from one source to five distinct ports. -/
def scanFlows : List NetworkFlow :=
  [10, 20, 30, 40, 50].map fun p =>
    { flow_id := "", src_ip := "203.0.113.7", dst_ip := "10.0.0.5"
      src_port := some 4000, dst_port := some p, protocol := .TCP
      packets := [], start_time := 0, last_seen := 0, byte_count := 0
      flags_seen := [] }

/-- Witness for detect_port_scan_spec: on scanFlows the detector fires. -/
theorem detect_port_scan_spec_witness :
    (ThreatPatterns.detect_port_scan scanFlows).isSome ∧
      ∀ a, ThreatPatterns.detect_port_scan scanFlows = some a →
        a.threat_type = .PortScan := by
  refine ⟨(detect_port_scan_spec scanFlows).1.mpr ⟨"203.0.113.7", by decide⟩, ?_⟩
  intro a ha
  exact ((detect_port_scan_spec scanFlows).2 a ha).2.1

/-! ### Rule detector: volumetric DDoS (detection.rs) -/

namespace ThreatPatterns

/-- Componentwise addition on (packet, byte) totals. -/
def addTraffic (a b : Nat × Nat) : Nat × Nat := (a.1 + b.1, a.2 + b.2)

/-- The grouping step of detect_ddos: every flow adds its packet count and
byte count to its destination-IP entry. -/
def ddosStep (acc : List (String × (Nat × Nat))) (f : NetworkFlow) :
    List (String × (Nat × Nat)) :=
  bumpAssoc addTraffic f.dst_ip (f.packets.length, f.byte_count) acc

/-- `target_traffic` of detect_ddos. -/
def groupTraffic (flows : List NetworkFlow) : List (String × (Nat × Nat)) :=
  flows.foldl ddosStep []

/-- Summed packet and byte totals toward `dst` over a flow list. -/
def trafficOf (flows : List NetworkFlow) (dst : String) : Nat × Nat :=
  (((flows.filter (fun f => f.dst_ip = dst)).map fun f => f.packets.length).sum,
    ((flows.filter (fun f => f.dst_ip = dst)).map fun f => f.byte_count).sum)

/-- The DDoS alert detect_ddos builds for a qualifying destination. -/
def mkDDoSAlert (flows : List NetworkFlow) (dst : String) (pc bc : Nat) :
    ThreatAlert :=
  let confidence := (min ((pc : ℚ) / 10000) 1 + min ((bc : ℚ) / 100000000) 1) / 2
  { severity :=
      if pc > 5000 ∨ bc > 50000000 then .Critical
      else if pc > 2000 ∨ bc > 20000000 then .High
      else .Medium
    threat_type := .DDoS
    confidence := confidence
    anomaly_score := confidence
    source_ip := (flows.head?.map (·.src_ip)).getD dst
    target_ip := some dst
    affected_ports :=
      ((flows.filter (fun f => f.dst_ip = dst)).filterMap (·.dst_port)).dedup
    raw_packets :=
      (flows.filter (fun f => f.dst_ip = dst)).flatMap fun f => f.packets.map (·.id) }

/-- The scan over the grouped totals: return on the first destination over
1,000 packets or 10,000,000 bytes. -/
def scanTrafficEntries (flows : List NetworkFlow) :
    List (String × (Nat × Nat)) → Option ThreatAlert
  | [] => none
  | (dst, t) :: rest =>
      if 1000 < t.1 ∨ 10000000 < t.2 then some (mkDDoSAlert flows dst t.1 t.2)
      else scanTrafficEntries flows rest

/-- ThreatPatterns::detect_ddos. -/
def detect_ddos (flows : List NetworkFlow) : Option ThreatAlert :=
  scanTrafficEntries flows (groupTraffic flows)

end ThreatPatterns

theorem lookupAssoc_groupTraffic_aux (flows : List NetworkFlow)
    (acc : List (String × (Nat × Nat))) (x : String) :
    lookupAssoc (0, 0) (flows.foldl ThreatPatterns.ddosStep acc) x =
      ThreatPatterns.addTraffic (lookupAssoc (0, 0) acc x)
        (ThreatPatterns.trafficOf flows x) := by
  induction flows generalizing acc with
  | nil => simp [ThreatPatterns.trafficOf, ThreatPatterns.addTraffic]
  | cons f rest ih =>
      rw [List.foldl_cons, ih]
      unfold ThreatPatterns.ddosStep
      rw [lookupAssoc_bumpAssoc ThreatPatterns.addTraffic (0, 0)
        (fun v => by simp [ThreatPatterns.addTraffic])]
      by_cases hdst : x = f.dst_ip
      · subst hdst
        simp [ThreatPatterns.trafficOf, ThreatPatterns.addTraffic]
        omega
      · have : ¬ f.dst_ip = x := fun hh => hdst hh.symm
        simp [ThreatPatterns.trafficOf, ThreatPatterns.addTraffic, hdst, this]

theorem lookupAssoc_groupTraffic (flows : List NetworkFlow) (x : String) :
    lookupAssoc (0, 0) (ThreatPatterns.groupTraffic flows) x =
      ThreatPatterns.trafficOf flows x := by
  have h := lookupAssoc_groupTraffic_aux flows [] x
  simpa [ThreatPatterns.groupTraffic, ThreatPatterns.addTraffic, lookupAssoc]
    using h

theorem nodup_keys_groupTraffic (flows : List NetworkFlow) :
    ((ThreatPatterns.groupTraffic flows).map Prod.fst).Nodup := by
  suffices h : ∀ (l : List NetworkFlow) (acc : List (String × (Nat × Nat))),
      (acc.map Prod.fst).Nodup →
      ((l.foldl ThreatPatterns.ddosStep acc).map Prod.fst).Nodup by
    exact h flows [] (by simp)
  intro l
  induction l with
  | nil => intro acc h; simpa using h
  | cons f rest ih =>
      intro acc h
      rw [List.foldl_cons]
      exact ih _ (nodup_keys_bumpAssoc _ _ _ _ h)

theorem scanTrafficEntries_isSome (flows : List NetworkFlow)
    (l : List (String × (Nat × Nat))) :
    (ThreatPatterns.scanTrafficEntries flows l).isSome ↔
      ∃ e ∈ l, 1000 < e.2.1 ∨ 10000000 < e.2.2 := by
  induction l with
  | nil => simp [ThreatPatterns.scanTrafficEntries]
  | cons hd tl ih =>
      obtain ⟨dst, t⟩ := hd
      by_cases h : 1000 < t.1 ∨ 10000000 < t.2
      · simp [ThreatPatterns.scanTrafficEntries, h]
      · simp [ThreatPatterns.scanTrafficEntries, h, ih]

theorem scanTrafficEntries_eq_some (flows : List NetworkFlow)
    (l : List (String × (Nat × Nat))) (a : ThreatAlert)
    (h : ThreatPatterns.scanTrafficEntries flows l = some a) :
    ∃ e ∈ l, (1000 < e.2.1 ∨ 10000000 < e.2.2) ∧
      a = ThreatPatterns.mkDDoSAlert flows e.1 e.2.1 e.2.2 := by
  induction l with
  | nil => simp [ThreatPatterns.scanTrafficEntries] at h
  | cons hd tl ih =>
      obtain ⟨dst, t⟩ := hd
      by_cases hc : 1000 < t.1 ∨ 10000000 < t.2
      · rw [ThreatPatterns.scanTrafficEntries, if_pos hc] at h
        cases h
        exact ⟨(dst, t), List.mem_cons_self .., hc, rfl⟩
      · rw [ThreatPatterns.scanTrafficEntries, if_neg hc] at h
        obtain ⟨e, hmem, hcond, ha⟩ := ih h
        exact ⟨e, List.mem_cons_of_mem _ hmem, hcond, ha⟩

/-- C6: detect_ddos fires iff some destination IP accumulates more than
1,000 packets or 10,000,000 bytes over the given flows; any returned alert
is a DDoS alert for such a destination, with the Critical / High / Medium
ladder and confidence (min(pkts/10000,1) + min(bytes/1e8,1)) / 2. -/
theorem detect_ddos_spec (flows : List NetworkFlow) :
    ((ThreatPatterns.detect_ddos flows).isSome ↔
      ∃ dst, 1000 < (ThreatPatterns.trafficOf flows dst).1 ∨
        10000000 < (ThreatPatterns.trafficOf flows dst).2) ∧
    (∀ a, ThreatPatterns.detect_ddos flows = some a →
      ∃ dst, a.target_ip = some dst ∧
        (1000 < (ThreatPatterns.trafficOf flows dst).1 ∨
          10000000 < (ThreatPatterns.trafficOf flows dst).2) ∧
        a.threat_type = .DDoS ∧
        a.severity =
          (if 5000 < (ThreatPatterns.trafficOf flows dst).1 ∨
              50000000 < (ThreatPatterns.trafficOf flows dst).2 then .Critical
            else if 2000 < (ThreatPatterns.trafficOf flows dst).1 ∨
              20000000 < (ThreatPatterns.trafficOf flows dst).2 then .High
            else .Medium) ∧
        a.confidence =
          (min (((ThreatPatterns.trafficOf flows dst).1 : ℚ) / 10000) 1 +
            min (((ThreatPatterns.trafficOf flows dst).2 : ℚ) / 100000000) 1) / 2) := by
  constructor
  · rw [ThreatPatterns.detect_ddos, scanTrafficEntries_isSome]
    constructor
    · rintro ⟨⟨dst, t⟩, hmem, hcond⟩
      have ht : t = ThreatPatterns.trafficOf flows dst := by
        rw [← lookupAssoc_groupTraffic flows dst]
        exact (lookupAssoc_eq_of_mem (0, 0) _ dst t
          (nodup_keys_groupTraffic flows) hmem).symm
      exact ⟨dst, ht ▸ hcond⟩
    · rintro ⟨dst, hcond⟩
      have hne : ThreatPatterns.trafficOf flows dst ≠ (0, 0) := by
        intro hz
        rw [hz] at hcond
        simp at hcond
      have hlook : lookupAssoc (0, 0) (ThreatPatterns.groupTraffic flows) dst ≠ (0, 0) := by
        rw [lookupAssoc_groupTraffic]; exact hne
      have hmem := mem_of_lookupAssoc_ne (0, 0) _ dst hlook
      rw [lookupAssoc_groupTraffic] at hmem
      exact ⟨(dst, ThreatPatterns.trafficOf flows dst), hmem, hcond⟩
  · intro a ha
    obtain ⟨⟨dst, t⟩, hmem, hcond, rfl⟩ :=
      scanTrafficEntries_eq_some flows _ a ha
    have ht : t = ThreatPatterns.trafficOf flows dst := by
      rw [← lookupAssoc_groupTraffic flows dst]
      exact (lookupAssoc_eq_of_mem (0, 0) _ dst t
        (nodup_keys_groupTraffic flows) hmem).symm
    subst ht
    exact ⟨dst, rfl, hcond, rfl, rfl, rfl⟩

/-- 1,100 tiny flows worth of traffic toward one destination, modelled as
a single aggregated flow holding 1,100 packet entries. -/
def ddosFlows : List NetworkFlow :=
  [{ flow_id := "", src_ip := "9.9.9.9", dst_ip := "10.0.0.9"
     src_port := some 5000, dst_port := some 80, protocol := .TCP
     packets := (List.range 1100).map fun i =>
       ⟨i, 0, ⟨"9.9.9.9", "10.0.0.9", some 5000, some 80, .TCP, 1400, []⟩⟩
     start_time := 0, last_seen := 0, byte_count := 1540000
     flags_seen := [] }]

/-- Witness for detect_ddos_spec: ddosFlows trip the packet threshold. -/
theorem detect_ddos_spec_witness :
    (ThreatPatterns.detect_ddos ddosFlows).isSome ∧
      ∀ a, ThreatPatterns.detect_ddos ddosFlows = some a →
        ∃ dst, a.target_ip = some dst := by
  refine ⟨(detect_ddos_spec ddosFlows).1.mpr
    ⟨"10.0.0.9", Or.inl (by simp [ThreatPatterns.trafficOf, ddosFlows])⟩, ?_⟩
  intro a ha
  obtain ⟨dst, htgt, _⟩ := (detect_ddos_spec ddosFlows).2 a ha
  exact ⟨dst, htgt⟩

/-! ### FlowFeatures (types.rs) and the ML feature pipeline (ml.rs) -/

/-- FlowFeatures from types.rs; f32 fields become exact rationals. -/
structure FlowFeatures where
  flow_id : String
  duration : ℚ
  packet_count : Nat
  byte_count : Nat
  packets_per_second : ℚ
  bytes_per_second : ℚ
  avg_packet_size : ℚ
  protocol_distribution : List (Protocol × Nat)
  port_entropy : ℚ
  inter_arrival_times : List ℚ
  packet_size_variance : ℚ
  flag_patterns : List String
deriving DecidableEq, Repr

/-- Minimum of a nonempty list, 0 on the empty list
(`iter().min_by(partial_cmp).unwrap_or(&0.0)`). -/
def listMin : List ℚ → ℚ
  | [] => 0
  | x :: xs => xs.foldl min x

/-- Maximum of a nonempty list, 0 on the empty list. -/
def listMax : List ℚ → ℚ
  | [] => 0
  | x :: xs => xs.foldl max x

/-- Whether the character list `hay` starts with `pat`. -/
def leadsWith : List Char → List Char → Bool
  | _, [] => true
  | [], _ :: _ => false
  | a :: as, b :: bs => a == b && leadsWith as bs

/-- Whether `pat` occurs as a contiguous run inside `hay`
(str::contains on the character level). -/
def hasSub : List Char → List Char → Bool
  | [], pat => leadsWith [] pat
  | a :: rest, pat => leadsWith (a :: rest) pat || hasSub rest pat

/-- String containment used by the flag-count features. -/
def hasSubstring (s pat : String) : Bool :=
  hasSub s.data pat.data

/-- FeatureStatistics from ml.rs: per-feature running statistics keyed by
the string "feature_i". -/
structure FeatureStatistics where
  means : List (String × ℚ)
  stds : List (String × ℚ)
  mins : List (String × ℚ)
  maxs : List (String × ℚ)
  update_count : Nat
deriving DecidableEq, Repr

/-- FeatureStatistics::default. -/
def FeatureStatistics.init : FeatureStatistics :=
  ⟨[], [], [], [], 0⟩

/-- The key "feature_{i}". -/
def featureName (i : Nat) : String :=
  "feature_" ++ toString i

namespace MLFeatureExtractor

/-- FeatureExtractor::extract_features from ml.rs.  `sq` stands for the
f32 square root used for the inter-arrival standard deviation. -/
def extract_features (sq : ℚ → ℚ) (flow : FlowFeatures) : List ℚ :=
  let base : List ℚ :=
    [flow.duration, (flow.packet_count : ℚ), (flow.byte_count : ℚ),
      flow.packets_per_second, flow.bytes_per_second, flow.avg_packet_size,
      flow.port_entropy, flow.packet_size_variance]
  let iat : List ℚ :=
    if flow.inter_arrival_times = [] then [0, 0, 0, 0]
    else
      let n : ℚ := flow.inter_arrival_times.length
      let mean_iat := flow.inter_arrival_times.sum / n
      let var_iat :=
        (flow.inter_arrival_times.map fun x => (x - mean_iat) ^ 2).sum / n
      [mean_iat, sq var_iat, listMin flow.inter_arrival_times,
        listMax flow.inter_arrival_times]
  let total : Nat := (flow.protocol_distribution.map Prod.snd).sum
  let proto : List ℚ :=
    if 0 < total then
      [((lookupAssoc (0 : Nat) flow.protocol_distribution Protocol.TCP : Nat) : ℚ) / (total : ℚ),
        ((lookupAssoc (0 : Nat) flow.protocol_distribution Protocol.UDP : Nat) : ℚ) / (total : ℚ),
        ((lookupAssoc (0 : Nat) flow.protocol_distribution Protocol.ICMP : Nat) : ℚ) / (total : ℚ)]
    else [0, 0, 0]
  let flagCount : String → ℚ := fun pat =>
    ((flow.flag_patterns.filter fun fl => hasSubstring fl pat).length : ℚ)
  base ++ iat ++ proto ++
    [flagCount "SYN", flagCount "ACK", flagCount "FIN", flagCount "RST"]

/-- FeatureExtractor::normalize_features from ml.rs. -/
def normalize_features (stats : FeatureStatistics) (features : List ℚ) : List ℚ :=
  if stats.update_count = 0 then features
  else
    features.enum.map fun iv =>
      let name := featureName iv.1
      match lookupOpt stats.means name, lookupOpt stats.stds name with
      | some mean, some std =>
          if 1 / 100000000 < std then (iv.2 - mean) / std else 0
      | _, _ => iv.2

end MLFeatureExtractor

/-- Vec::resize(n, pad): truncate past n, pad with `pad` up to n. -/
def resizeVec (n : Nat) (pad : ℚ) (l : List ℚ) : List ℚ :=
  if n ≤ l.length then l.take n else l ++ List.replicate (n - l.length) pad

/-- The input vector MLEngine::predict feeds to the network: extract,
normalize against the current statistics, then resize to 20 entries. -/
def predictInputVector (sq : ℚ → ℚ) (stats : FeatureStatistics)
    (flow : FlowFeatures) : List ℚ :=
  resizeVec 20 0
    (MLFeatureExtractor.normalize_features stats
      (MLFeatureExtractor.extract_features sq flow))

theorem extract_features_length (sq : ℚ → ℚ) (flow : FlowFeatures) :
    (MLFeatureExtractor.extract_features sq flow).length = 19 := by
  unfold MLFeatureExtractor.extract_features
  dsimp only
  split <;> split <;> simp

theorem normalize_features_length (stats : FeatureStatistics) (features : List ℚ) :
    (MLFeatureExtractor.normalize_features stats features).length =
      features.length := by
  unfold MLFeatureExtractor.normalize_features
  split
  · rfl
  · simp [List.enum_length]

/-- C7: for every FlowFeatures input (and every normalizer state), the
vector handed to the network has exactly 20 entries and its 20th entry,
the padding slot produced by the resize, is 0; the raw extractor yields 19
entries and the resize truncates anything past 20. -/
theorem predict_feature_vector_dims (sq : ℚ → ℚ) (stats : FeatureStatistics)
    (flow : FlowFeatures) :
    (predictInputVector sq stats flow).length = 20 ∧
      (predictInputVector sq stats flow).getLast? = some 0 := by
  have hlen : (MLFeatureExtractor.normalize_features stats
      (MLFeatureExtractor.extract_features sq flow)).length = 19 := by
    rw [normalize_features_length, extract_features_length]
  unfold predictInputVector resizeVec
  rw [hlen, if_neg (by norm_num)]
  refine ⟨?_, ?_⟩
  · simp [hlen]
  · rw [show (20 - 19 : Nat) = 1 from rfl, List.replicate_one,
      List.getLast?_concat]

/-- C9: before the first statistics update (update_count is 0, as in the
freshly constructed extractor) normalize_features is the identity. -/
theorem normalize_identity_before_update (stats : FeatureStatistics)
    (features : List ℚ) (h : stats.update_count = 0) :
    MLFeatureExtractor.normalize_features stats features = features := by
  unfold MLFeatureExtractor.normalize_features
  rw [if_pos h]

/-- Witness for normalize_identity_before_update on the fresh extractor
state and a concrete vector. -/
theorem normalize_identity_before_update_witness :
    MLFeatureExtractor.normalize_features FeatureStatistics.init [1, 2, 3] =
      [1, 2, 3] :=
  normalize_identity_before_update FeatureStatistics.init [1, 2, 3] rfl

/-! ### Flow feature extraction (features.rs) -/

namespace Features

/-- calculate_entropy from features.rs; `lg` stands for f32 log2. -/
def calculate_entropy (lg : ℚ → ℚ) (counts : List (Nat × Nat)) : ℚ :=
  if counts.length ≤ 1 then 0
  else
    let total : Nat := (counts.map Prod.snd).sum
    if total = 0 then 0
    else
      (((counts.map Prod.snd).filter fun c => decide (0 < c)).map fun c =>
        -(((c : ℚ) / (total : ℚ)) * lg ((c : ℚ) / (total : ℚ)))).sum

/-- calculate_variance from features.rs (sample variance, n − 1). -/
def calculate_variance (values : List ℚ) : ℚ :=
  if values.length ≤ 1 then 0
  else
    let mean := values.sum / (values.length : ℚ)
    (values.map fun v => (v - mean) ^ 2).sum / ((values.length - 1 : Nat) : ℚ)

/-- Consecutive inter-arrival times in seconds, clamped at 0
(`diff.max(0.0)`). -/
def iatList : List PacketData → List ℚ
  | [] => []
  | [_] => []
  | a :: b :: rest =>
      max (((b.timestamp - a.timestamp : Int) : ℚ) / 1000) 0 :: iatList (b :: rest)

/-- FeatureExtractor::extract_flow_features from features.rs. -/
def extract_flow_features (lg : ℚ → ℚ) (packets : List PacketData) :
    Except String FlowFeatures :=
  match packets with
  | [] => .error "Cannot extract features from empty packet sequence"
  | first :: rest =>
      let all := first :: rest
      let lastP := all.getLast (List.cons_ne_nil first rest)
      let duration : ℚ := ((lastP.timestamp - first.timestamp : Int) : ℚ) / 1000
      let packet_count : Nat := all.length
      let byte_count : Nat := (all.map fun p => p.parsed.size).sum
      let packets_per_second : ℚ :=
        if 0 < duration then (packet_count : ℚ) / duration else 0
      let bytes_per_second : ℚ :=
        if 0 < duration then (byte_count : ℚ) / duration else 0
      let avg_packet_size : ℚ :=
        if 0 < packet_count then (byte_count : ℚ) / (packet_count : ℚ) else 0
      let protocol_distribution :=
        all.foldl (fun acc p => bumpAssoc (· + ·) p.parsed.protocol 1 acc) []
      let port_counts : List (Nat × Nat) :=
        all.foldl
          (fun acc p =>
            match p.parsed.dst_port with
            | some port => bumpAssoc (· + ·) port 1 acc
            | none => acc) []
      .ok
        { flow_id := mkFlowId first.parsed
          duration := duration
          packet_count := packet_count
          byte_count := byte_count
          packets_per_second := packets_per_second
          bytes_per_second := bytes_per_second
          avg_packet_size := avg_packet_size
          protocol_distribution := protocol_distribution
          port_entropy := calculate_entropy lg port_counts
          inter_arrival_times := iatList all
          packet_size_variance :=
            calculate_variance (all.map fun p => (p.parsed.size : ℚ))
          flag_patterns := all.flatMap fun p => p.parsed.flags }

end Features

/-- C10: extract_flow_features returns a FlowFeatures value exactly on
non-empty packet slices, and the empty-slice error otherwise. -/
theorem extract_flow_features_ok_iff_nonempty (lg : ℚ → ℚ)
    (packets : List PacketData) :
    ((∃ f, Features.extract_flow_features lg packets = .ok f) ↔ packets ≠ []) ∧
      (packets = [] →
        Features.extract_flow_features lg packets =
          .error "Cannot extract features from empty packet sequence") := by
  cases packets with
  | nil => simp [Features.extract_flow_features]
  | cons p rest =>
      refine ⟨⟨fun _ => List.cons_ne_nil p rest, fun _ => ⟨_, rfl⟩⟩, ?_⟩
      intro h
      exact absurd h (List.cons_ne_nil p rest)

/-! ### SystemStats (types.rs) -/

/-- SystemStats from types.rs.  DateTime / Instant fields are integer
milliseconds; the two `serde(skip)` rate-tracking fields are kept. -/
structure SystemStats where
  packets_processed : Nat
  bytes_processed : Nat
  threats_detected : Nat
  processing_rate : ℚ
  memory_usage : Nat
  cpu_usage : ℚ
  active_flows : Nat
  alert_counts : List (Severity × Nat)
  protocol_distribution : List (Protocol × Nat)
  top_talkers : List (String × Nat)
  last_rate_calculation : Int
  last_packet_count : Nat
deriving DecidableEq, Repr

/-- SystemStats::new at instant `now`. -/
def SystemStats.init (now : Int) : SystemStats where
  packets_processed := 0
  bytes_processed := 0
  threats_detected := 0
  processing_rate := 0
  memory_usage := 0
  cpu_usage := 0
  active_flows := 0
  alert_counts := []
  protocol_distribution := []
  top_talkers := []
  last_rate_calculation := now
  last_packet_count := 0

/-- SystemStats::update_packet_stats at instant `now`: count the packet
and its bytes, and refresh the processing rate once at least one second
has elapsed. -/
def SystemStats.update_packet_stats (s : SystemStats) (now : Int) (size : Nat) :
    SystemStats :=
  let s := { s with
    packets_processed := s.packets_processed + 1
    bytes_processed := s.bytes_processed + size }
  let elapsed : ℚ := ((now - s.last_rate_calculation : Int) : ℚ) / 1000
  if 1 ≤ elapsed then
    { s with
      processing_rate :=
        ((s.packets_processed - s.last_packet_count : Nat) : ℚ) / elapsed
      last_rate_calculation := now
      last_packet_count := s.packets_processed }
  else s

/-- SystemStats::increment_threat_count. -/
def SystemStats.increment_threat_count (s : SystemStats) (sev : Severity) :
    SystemStats :=
  { s with
    threats_detected := s.threats_detected + 1
    alert_counts := bumpAssoc (· + ·) sev 1 s.alert_counts }

/-! ### Capture enqueue steps (capture.rs)

Both packet sources share one per-packet shape: update Stats first, then
try_send into the bounded queue of capacity 10,000.  The simulated source
additionally counts drops; the live source only logs them. -/

/-- Result of handing one packet to the queue. -/
structure EnqueueResult where
  queue : List PacketData
  stats : SystemStats
  dropped : Nat
  sent : Bool
deriving Repr

/-- The per-packet body of SimulatedCapture::generate_packets: stats are
written before the try_send, and a full queue bumps the local dropped
counter. -/
def simulatedPacketStep (now : Int) (queue : List PacketData)
    (stats : SystemStats) (dropped : Nat) (pkt : PacketData) : EnqueueResult :=
  let stats := stats.update_packet_stats now pkt.parsed.size
  let stats := { stats with
    protocol_distribution :=
      bumpAssoc (· + ·) pkt.parsed.protocol 1 stats.protocol_distribution }
  if queue.length < 10000 then ⟨queue ++ [pkt], stats, dropped, true⟩
  else ⟨queue, stats, dropped + 1, false⟩

/-- The per-packet body of PacketCapture::start_capture after a successful
parse: identical stats-before-enqueue shape, drops only logged. -/
def livePacketStep (now : Int) (queue : List PacketData)
    (stats : SystemStats) (pkt : PacketData) : EnqueueResult :=
  let stats := stats.update_packet_stats now pkt.parsed.size
  let stats := { stats with
    protocol_distribution :=
      bumpAssoc (· + ·) pkt.parsed.protocol 1 stats.protocol_distribution }
  if queue.length < 10000 then ⟨queue ++ [pkt], stats, 0, true⟩
  else ⟨queue, stats, 0, false⟩

/-- A packet of the simulated normal-traffic shape. -/
def simPacket : PacketData :=
  ⟨7, 0, ⟨"192.168.1.5", "10.0.0.1", some 40000, some 443, .TCP, 120, ["SYN"]⟩⟩

/-- A queue already holding its full 10,000-packet capacity. -/
def fullQueue : List PacketData :=
  List.replicate 10000 simPacket

theorem fullQueue_not_short : ¬ fullQueue.length < 10000 := by
  rw [show fullQueue = List.replicate 10000 simPacket from rfl,
    List.length_replicate]
  exact Nat.lt_irrefl 10000

/-- C3, counterexample: with the queue full (10,000 entries) the enqueue
fails, yet packets_processed still advances from 0 to 1 — the Stats write
happens before the send attempt, so a dropped packet does not leave the
counters unchanged. -/
theorem full_queue_drop_still_counts_packet :
    (simulatedPacketStep 0 fullQueue (SystemStats.init 0) 0 simPacket).sent = false ∧
      (simulatedPacketStep 0 fullQueue
        (SystemStats.init 0) 0 simPacket).stats.packets_processed = 1 ∧
      (simulatedPacketStep 0 fullQueue (SystemStats.init 0) 0 simPacket).dropped = 1 := by
  refine ⟨?_, ?_, ?_⟩ <;>
    norm_num [simulatedPacketStep, fullQueue_not_short,
      SystemStats.update_packet_stats, SystemStats.init, simPacket]

/-- C3 (amended): in both capture variants every packet updates
packets_processed, bytes_processed and the protocol histogram before the
enqueue attempt, whether or not the try_send succeeds; the enqueue
succeeds exactly when the queue holds fewer than 10,000 packets, and a
failed simulated enqueue only bumps the local dropped counter. -/
theorem enqueue_stats_updated_regardless (now : Int) (queue : List PacketData)
    (stats : SystemStats) (dropped : Nat) (pkt : PacketData) :
    ((simulatedPacketStep now queue stats dropped pkt).stats.packets_processed =
        stats.packets_processed + 1 ∧
      (simulatedPacketStep now queue stats dropped pkt).stats.bytes_processed =
        stats.bytes_processed + pkt.parsed.size ∧
      lookupAssoc 0
          (simulatedPacketStep now queue stats dropped pkt).stats.protocol_distribution
          pkt.parsed.protocol =
        lookupAssoc 0 stats.protocol_distribution pkt.parsed.protocol + 1 ∧
      ((simulatedPacketStep now queue stats dropped pkt).sent = true ↔
        queue.length < 10000) ∧
      ((simulatedPacketStep now queue stats dropped pkt).sent = false →
        (simulatedPacketStep now queue stats dropped pkt).dropped = dropped + 1)) ∧
    ((livePacketStep now queue stats pkt).stats.packets_processed =
        stats.packets_processed + 1 ∧
      ((livePacketStep now queue stats pkt).sent = true ↔
        queue.length < 10000)) := by
  have hbump : ∀ (l : List (Protocol × Nat)),
      lookupAssoc 0 (bumpAssoc (· + ·) pkt.parsed.protocol 1 l)
          pkt.parsed.protocol =
        lookupAssoc 0 l pkt.parsed.protocol + 1 := by
    intro l
    rw [lookupAssoc_bumpAssoc (· + ·) 0 (fun v => by simp)]
    simp
  by_cases hq : queue.length < 10000 <;>
    simp [simulatedPacketStep, livePacketStep, hq,
      SystemStats.update_packet_stats, hbump] <;>
    split <;> simp

/-- Witness for enqueue_stats_updated_regardless at a concrete full-queue
instant. -/
theorem enqueue_stats_updated_regardless_witness :
    (simulatedPacketStep 0 fullQueue (SystemStats.init 0) 3 simPacket).stats.packets_processed = 1 ∧
      (simulatedPacketStep 0 fullQueue (SystemStats.init 0) 3 simPacket).dropped = 4 := by
  have h := enqueue_stats_updated_regardless 0 fullQueue (SystemStats.init 0) 3 simPacket
  refine ⟨h.1.1.trans rfl, h.1.2.2.2.2 ?_⟩
  norm_num [simulatedPacketStep, fullQueue_not_short,
    SystemStats.update_packet_stats, SystemStats.init, simPacket]

/-! ### NetworkFlow::to_features (detection.rs) -/

/-- Consecutive inter-arrival times in seconds, without the clamp
(the detection.rs variant has no `.max(0.0)`). -/
def iatNoClamp : List PacketData → List ℚ
  | [] => []
  | [_] => []
  | a :: b :: rest =>
      ((b.timestamp - a.timestamp : Int) : ℚ) / 1000 :: iatNoClamp (b :: rest)

/-- NetworkFlow::to_features from detection.rs. -/
def NetworkFlow.to_features (flow : NetworkFlow) (lg : ℚ → ℚ) : FlowFeatures :=
  let duration : ℚ := ((flow.last_seen - flow.start_time : Int) : ℚ) / 1000
  let packet_count : Nat := flow.packets.length
  let packets_per_second : ℚ :=
    if 0 < duration then (packet_count : ℚ) / duration else 0
  let bytes_per_second : ℚ :=
    if 0 < duration then (flow.byte_count : ℚ) / duration else 0
  let avg_packet_size : ℚ :=
    if 0 < packet_count then (flow.byte_count : ℚ) / (packet_count : ℚ) else 0
  let sizes : List ℚ := flow.packets.map fun p => (p.parsed.size : ℚ)
  let packet_size_variance : ℚ :=
    if 1 < sizes.length then
      (sizes.map fun s => (s - avg_packet_size) ^ 2).sum / ((sizes.length - 1 : Nat) : ℚ)
    else 0
  let protocol_distribution :=
    flow.packets.foldl (fun acc p => bumpAssoc (· + ·) p.parsed.protocol 1 acc) []
  let port_counts : List (Nat × Nat) :=
    flow.packets.foldl
      (fun acc p =>
        match p.parsed.dst_port with
        | some port => bumpAssoc (· + ·) port 1 acc
        | none => acc) []
  let port_entropy : ℚ :=
    if 1 < port_counts.length then
      let total : ℚ := (((port_counts.map Prod.snd).sum : Nat) : ℚ)
      ((port_counts.map Prod.snd).map fun c =>
        -(((c : ℚ) / total) * lg ((c : ℚ) / total))).sum
    else 0
  { flow_id := flow.flow_id
    duration := duration
    packet_count := packet_count
    byte_count := flow.byte_count
    packets_per_second := packets_per_second
    bytes_per_second := bytes_per_second
    avg_packet_size := avg_packet_size
    protocol_distribution := protocol_distribution
    port_entropy := port_entropy
    inter_arrival_times := iatNoClamp flow.packets
    packet_size_variance := packet_size_variance
    flag_patterns := flow.flags_seen }

/-! ### Detection engine per-packet processing (detection.rs) -/

/-- The top-talkers pass of process_single_packet: add the size to the src
entry, to the dst entry otherwise, and report which were found. -/
def touchTalkers (src dst : String) (sz : Nat) :
    List (String × Nat) → List (String × Nat) × Bool × Bool
  | [] => ([], false, false)
  | (ip, b) :: rest =>
      let r := touchTalkers src dst sz rest
      if ip = src then ((ip, b + sz) :: r.1, true, r.2.2)
      else if ip = dst then ((ip, b + sz) :: r.1, r.2.1, true)
      else ((ip, b) :: r.1, r.2.1, r.2.2)

/-- Stable insertion into a bytes-descending list. -/
def insertByBytesDesc (x : String × Nat) : List (String × Nat) → List (String × Nat)
  | [] => [x]
  | y :: ys => if x.2 ≤ y.2 then y :: insertByBytesDesc x ys else x :: y :: ys

/-- `sort_by(|a, b| b.1.cmp(&a.1))`: stable sort, bytes descending. -/
def sortByBytesDesc (l : List (String × Nat)) : List (String × Nat) :=
  l.foldr insertByBytesDesc []

/-- The full top-talkers update of process_single_packet: touch existing
entries, push absent endpoints, and sort-truncate to 10 past 20 entries. -/
def updateTopTalkers (talkers : List (String × Nat)) (src dst : String)
    (sz : Nat) : List (String × Nat) :=
  let r := touchTalkers src dst sz talkers
  let t := if r.2.1 then r.1 else r.1 ++ [(src, sz)]
  let t := if ¬ r.2.2 ∧ dst ≠ src then t ++ [(dst, sz)] else t
  if 20 < t.length then (sortByBytesDesc t).take 10 else t

/-- The alert of DetectionEngine::create_ml_alert. -/
def mkMLAlert (fl : NetworkFlow) (score : ℚ) : ThreatAlert where
  severity := if 9/10 < score then .High else if 8/10 < score then .Medium else .Low
  threat_type := .Anomalous
  confidence := score
  anomaly_score := score
  source_ip := fl.src_ip
  target_ip := some fl.dst_ip
  affected_ports := fl.dst_port.toList
  raw_packets := fl.packets.map (·.id)

/-- The mutable state DetectionEngine threads through packet processing:
the flow table (insertion order), the shared SystemStats, the recent-alert
ring and the alerts broadcast so far. -/
structure EngineState where
  flows : List (String × NetworkFlow)
  stats : SystemStats
  recent : List ThreatAlert
  emitted : List ThreatAlert
deriving Repr

/-- DetectionEngine::send_alert: bump the threat counters, push into the
100-alert ring, and broadcast. -/
def sendAlert (st : EngineState) (a : ThreatAlert) : EngineState :=
  let stats := st.stats.increment_threat_count a.severity
  let recent := st.recent ++ [a]
  let recent := if 100 < recent.length then recent.tail else recent
  { st with stats := stats, recent := recent, emitted := st.emitted ++ [a] }

/-- DetectionEngine::process_single_packet.  `predict` stands for
MLEngine::predict, whose value depends on the randomly initialised candle
network (None models an inference error); `lg` is the f32 log2 used by
to_features; `now` is the current instant in milliseconds. -/
def processSinglePacket (lg : ℚ → ℚ) (predict : FlowFeatures → Option ℚ)
    (now : Int) (st : EngineState) (pkt : PacketData) : EngineState :=
  let s0 := st.stats.update_packet_stats now pkt.parsed.size
  let s0 := { s0 with
    protocol_distribution :=
      bumpAssoc (· + ·) pkt.parsed.protocol 1 s0.protocol_distribution }
  let s0 := { s0 with active_flows := st.flows.length }
  let s0 := { s0 with
    top_talkers :=
      updateTopTalkers s0.top_talkers pkt.parsed.src_ip pkt.parsed.dst_ip
        pkt.parsed.size }
  let flowId := mkFlowId pkt.parsed
  let upsert :=
    match lookupOpt st.flows flowId with
    | some _ => (updateEntry (fun fl : NetworkFlow => fl.add_packet now pkt) flowId st.flows, true)
    | none => (st.flows ++ [(flowId, NetworkFlow.new now pkt)], false)
  let s0 := { s0 with active_flows := upsert.1.length }
  let st1 : EngineState := { st with flows := upsert.1, stats := s0 }
  let st2 :=
    if upsert.2 then
      match lookupOpt st1.flows flowId with
      | none => st1
      | some fl =>
          let stMl :=
            if 5 ≤ fl.packets.length then
              match predict (fl.to_features lg) with
              | some score =>
                  if 7/10 < score then sendAlert st1 (mkMLAlert fl score) else st1
              | none => st1
            else st1
          match ThreatPatterns.detect_suspicious_flags fl with
          | some a => sendAlert stMl a
          | none => stMl
    else st1
  if st2.flows.length % 100 = 0 then
    let flowsList := st2.flows.map Prod.snd
    let st3 :=
      match ThreatPatterns.detect_port_scan flowsList with
      | some a => sendAlert st2 a
      | none => st2
    match ThreatPatterns.detect_ddos flowsList with
    | some a => sendAlert st3 a
    | none => st3
  else st2

/-- The single SYN+FIN TCP packet of the illegal-flag-combo scenario. -/
def synFinPacket : PacketData :=
  ⟨0, 0, ⟨"198.51.100.1", "10.0.0.2", some 44444, some 80, .TCP, 64,
    ["SYN", "FIN"]⟩⟩

/-- The engine state right after DetectionEngine::new. -/
def initEngineState : EngineState :=
  ⟨[], SystemStats.init 0, [], []⟩

/-- C1: processing the single SYN+FIN packet from a fresh engine emits no
alert at all (for every model output and instant), even though
detect_suspicious_flags fires on the very flow the packet creates — the
per-flow rule pass is guarded by flow_updated, which stays false when the
packet creates the flow. -/
theorem single_syn_fin_packet_emits_no_alert (lg : ℚ → ℚ)
    (predict : FlowFeatures → Option ℚ) (now : Int) :
    (processSinglePacket lg predict now initEngineState synFinPacket).emitted = [] ∧
      (ThreatPatterns.detect_suspicious_flags
        (NetworkFlow.new now synFinPacket)).isSome = true :=
  ⟨rfl, rfl⟩

/-! ### Lifecycle (lib.rs and the API start handler) -/

/-- The lifecycle-relevant state of a NetworkIDS handle: whether a
detection engine has been installed and how many long-running tasks have
been spawned so far. -/
structure IDSModelState where
  engineInstalled : Bool
  tasksSpawned : Nat
deriving DecidableEq, Repr

namespace NetworkIDSModel

/-- NetworkIDS::start from lib.rs: build the engines, spawn the capture,
detection, stats-log and sampler tasks, and return Ok — there is no check
of any running flag.  `mlInitOk` models whether MLEngine::new succeeds;
on failure the error propagates via `?`. -/
def start (mlInitOk : Bool) (s : IDSModelState) :
    Except String Unit × IDSModelState :=
  if mlInitOk then
    (Except.ok (), { engineInstalled := true, tasksSpawned := s.tasksSpawned + 4 })
  else
    (Except.error "ml engine init failed", s)

end NetworkIDSModel

/-- The start_ids handler of the API crate: reject when an IDS instance is
already stored, otherwise construct one and call start. -/
def start_ids_handler (mlInitOk : Bool) (ids : Option IDSModelState) :
    Except String (Option IDSModelState) :=
  match ids with
  | some _ => .error "IDS already running"
  | none =>
      let r := NetworkIDSModel.start mlInitOk ⟨false, 0⟩
      match r.1 with
      | .ok _ => .ok (some r.2)
      | .error e => .error e

/-- C4, counterexample: calling NetworkIDS::start a second time while the
system is running does not fail — it returns Ok again and spawns the four
pipeline tasks a second time (8 in total). -/
theorem double_start_returns_ok :
    (NetworkIDSModel.start true
        (NetworkIDSModel.start true ⟨false, 0⟩).2).1 = Except.ok () ∧
      (NetworkIDSModel.start true
        (NetworkIDSModel.start true ⟨false, 0⟩).2).2.tasksSpawned = 8 :=
  ⟨rfl, rfl⟩

/-- C4 (amended): the core NetworkIDS::start performs no double-start
check — whenever the ML engine initialises, it returns Ok and spawns the
pipeline tasks again, whatever the current state; the AlreadyRunning
rejection lives in the API caller, whose handler refuses with an
"IDS already running" error, without invoking start, whenever an instance
is already present. -/
theorem start_unguarded_but_api_guards :
    (∀ s : IDSModelState, (NetworkIDSModel.start true s).1 = Except.ok () ∧
      (NetworkIDSModel.start true s).2.tasksSpawned = s.tasksSpawned + 4) ∧
    (∀ (mlInitOk : Bool) (ids : Option IDSModelState), ids.isSome →
      start_ids_handler mlInitOk ids = .error "IDS already running") := by
  refine ⟨fun s => ⟨rfl, rfl⟩, ?_⟩
  intro mlInitOk ids h
  match ids with
  | some s => rfl
  | none => simp at h

/-- Witness for start_unguarded_but_api_guards on a running instance. -/
theorem start_unguarded_but_api_guards_witness :
    start_ids_handler true (some ⟨true, 4⟩) = .error "IDS already running" :=
  start_unguarded_but_api_guards.2 true (some ⟨true, 4⟩) rfl

/-- Witness for extract_flow_features_ok_iff_nonempty at the empty slice. -/
theorem extract_flow_features_ok_iff_nonempty_witness :
    Features.extract_flow_features (fun x => x) [] =
      .error "Cannot extract features from empty packet sequence" :=
  (extract_flow_features_ok_iff_nonempty (fun x => x) []).2 rfl
